import Mathlib

/-!
A shallow embedding of the DisciplinedCreatorAgent request pipeline
(observe → analyze → simplify → callAIModel) from the repository's
JavaScript sources, together with theorems about the intent classifier,
the response planner, the prompt assembler and the model gateway.

Namespace map:
* top level — JavaScript value/string primitives shared by all variants,
  and the generic ordered-rule classifier;
* `Chat` — the agent of `src/chat.js` (Groq chat-completions provider);
* `ApiChat` — the agent of `src/api/chat.js` (Gemini generate-content
  provider);
* `DCA` — the classifier of `src/unnamed/part_000`
  (`DisciplinedCreatorAgent.js`).
-/

/-- A JavaScript value, as far as the pipeline inspects one: the HTTP layer
may hand `processInteraction` any JSON value, and the pipeline only relies
on truthiness and `toString`. -/
inductive JSValue where
  | undef
  | null
  | bool (b : Bool)
  | num (n : Int)
  | str (s : String)
deriving DecidableEq

/-- JavaScript truthiness for the modelled values. -/
def jsTruthy : JSValue → Bool
  | .undef => false
  | .null => false
  | .bool b => b
  | .num n => n != 0
  | .str s => s != ""

/-- JavaScript `a || b` on values. -/
def jsOr (a b : JSValue) : JSValue := if jsTruthy a then a else b

/-- JavaScript `v.toString()` for the modelled values. -/
def jsToString : JSValue → String
  | .undef => "undefined"
  | .null => "null"
  | .bool b => if b then "true" else "false"
  | .num n => toString n
  | .str s => s

/-- JavaScript `s.toLowerCase()` (character-wise lower casing). -/
def jsToLower (s : String) : String := ⟨s.data.map Char.toLower⟩

/-- JavaScript `s.toUpperCase()` (character-wise upper casing). -/
def jsToUpper (s : String) : String := ⟨s.data.map Char.toUpper⟩

/-- Drop whitespace from both ends of a character list. -/
def trimChars (l : List Char) : List Char :=
  ((l.dropWhile Char.isWhitespace).reverse.dropWhile Char.isWhitespace).reverse

/-- JavaScript `s.trim()`. -/
def jsTrim (s : String) : String := ⟨trimChars s.data⟩

/-- Does `needle` occur at the start of `hay`? -/
def charsStartWith : List Char → List Char → Bool
  | [], _ => true
  | _ :: _, [] => false
  | a :: as, b :: bs => a == b && charsStartWith as bs

/-- Does `needle` occur contiguously anywhere in `hay`? -/
def charsContain (needle : List Char) : List Char → Bool
  | [] => charsStartWith needle []
  | b :: bs => charsStartWith needle (b :: bs) || charsContain needle bs

/-- JavaScript `hay.includes(needle)`. -/
def strIncludes (hay needle : String) : Bool := charsContain needle.data hay.data

/-- JavaScript `arr.join(sep)`. -/
def joinSep (sep : String) : List String → String
  | [] => ""
  | [x] => x
  | x :: y :: ys => x ++ sep ++ joinSep sep (y :: ys)

/-- JavaScript `a || b` where `a` is a possibly-absent string
(absent, `null` and the empty string are all falsy). -/
def jsOrString (a : Option String) (b : String) : String :=
  match a with
  | some s => if s = "" then b else s
  | none => b

/-- Truthiness of an environment credential (`process.env.X` is either a
string or `undefined`; the empty string is falsy). -/
def keyTruthy : Option String → Bool
  | none => false
  | some s => s != ""

/-- `needle` occurs verbatim as a contiguous substring of `hay`. -/
def IsSubstr (needle hay : String) : Prop :=
  ∃ l r, hay.data = l ++ needle.data ++ r

/-- The record built by `#observe`: trimmed text plus an ISO timestamp
(`new Date().toISOString()` is modelled by the `now` parameter). -/
structure Observed where
  text : String
  timestamp : String
deriving DecidableEq

/-- The record built by `#analyze`: the observed fields plus an intent. -/
structure Analysis where
  text : String
  timestamp : String
  intent : String
deriving DecidableEq

/-- The record built by `#simplify`: the analysis fields plus the selected
templates and the persona context. -/
structure Plan where
  text : String
  timestamp : String
  intent : String
  systemGoal : String
  structureHint : String
  persona : String
  corePrinciples : List String
  knowledgeDomains : List String
deriving DecidableEq

/-- `#observe` from `src/chat.js` lines 44–50 (identical in
`src/api/chat.js` and, up to extra diagnostic fields, in
`src/unnamed/part_000`): `const text = (input || '').toString().trim()`. -/
def observe (input : JSValue) (now : String) : Observed :=
  { text := jsTrim (jsToString (jsOr input (.str ""))),
    timestamp := now }

/-- One classifier rule: a keyword list together with its intent label. -/
abbrev KeywordRule := List String × String

/-- A rule fires when any of its keywords occurs in the lower-cased text. -/
def ruleMatches (lower : String) (r : KeywordRule) : Bool :=
  r.1.any (fun k => strIncludes lower k)

/-- First-match dispatch over an ordered rule list, falling through to the
default intent: the explicit ordered-rule form of the `#analyze` if/else
chain. -/
def classifyList (dflt : String) (lower : String) : List KeywordRule → String
  | [] => dflt
  | r :: rest => if ruleMatches lower r then r.2 else classifyList dflt lower rest

namespace Chat

/-- The ordered keyword rules of `#analyze` in `src/chat.js` lines 56–64,
in source order. -/
def rules : List KeywordRule :=
  [ (["discipline", "consistency", "system", "habit", "motivation"],
      "system_design_support"),
    (["code", "bug", "arduino", "groq", "github", "ai", "iot"],
      "technical_system_help"),
    (["emotion", "stressed", "overwhelmed", "calm", "mindset"],
      "emotional_control_reframing"),
    (["cgl", "reasoning", "ncert", "study", "aspirant"],
      "educational_aspirant_guidance") ]

/-- The intent computation of `#analyze` in `src/chat.js` lines 52–67,
transcribed clause for clause from the if/else chain. -/
def analyzeIntent (lower : String) : String :=
  if strIncludes lower "discipline" || strIncludes lower "consistency" || strIncludes lower "system" || strIncludes lower "habit" || strIncludes lower "motivation" then
    "system_design_support"
  else if strIncludes lower "code" || strIncludes lower "bug" || strIncludes lower "arduino" || strIncludes lower "groq" || strIncludes lower "github" || strIncludes lower "ai" || strIncludes lower "iot" then
    "technical_system_help"
  else if strIncludes lower "emotion" || strIncludes lower "stressed" || strIncludes lower "overwhelmed" || strIncludes lower "calm" || strIncludes lower "mindset" then
    "emotional_control_reframing"
  else if strIncludes lower "cgl" || strIncludes lower "reasoning" || strIncludes lower "ncert" || strIncludes lower "study" || strIncludes lower "aspirant" then
    "educational_aspirant_guidance"
  else
    "general_guidance"

/-- `#analyze` from `src/chat.js`: lower-case the observed text, classify,
and return the observed fields plus the intent. -/
def analyze (o : Observed) : Analysis :=
  { text := o.text, timestamp := o.timestamp,
    intent := analyzeIntent (jsToLower o.text) }

/-- The if/else chain of `#analyze` is exactly first-match dispatch over
the ordered rule list with default intent `general_guidance`. -/
theorem analyzeIntent_eq_classifyList (lower : String) :
    analyzeIntent lower = classifyList "general_guidance" lower rules := by
  simp [analyzeIntent, classifyList, rules, ruleMatches, List.any_cons,
    List.any_nil, Bool.or_false, Bool.or_assoc]

end Chat

namespace DCA

/-- The ordered keyword rules of `#analyze` in `src/unnamed/part_000`
lines 75–105, in source order. -/
def rules : List KeywordRule :=
  [ (["discipline", "focus", "consistency", "habits"], "discipline_support"),
    (["code", "bug", "node", "javascript", "repo", "github"], "technical_help"),
    (["sad", "stressed", "overwhelmed", "demotivated"], "emotional_venting"),
    (["plan", "system", "strategy", "roadmap"], "system_design") ]

/-- The intent computation of `#analyze` in `src/unnamed/part_000`
lines 71–108, transcribed clause for clause from the if/else chain. -/
def analyzeIntent (lower : String) : String :=
  if strIncludes lower "discipline" || strIncludes lower "focus" || strIncludes lower "consistency" || strIncludes lower "habits" then
    "discipline_support"
  else if strIncludes lower "code" || strIncludes lower "bug" || strIncludes lower "node" || strIncludes lower "javascript" || strIncludes lower "repo" || strIncludes lower "github" then
    "technical_help"
  else if strIncludes lower "sad" || strIncludes lower "stressed" || strIncludes lower "overwhelmed" || strIncludes lower "demotivated" then
    "emotional_venting"
  else if strIncludes lower "plan" || strIncludes lower "system" || strIncludes lower "strategy" || strIncludes lower "roadmap" then
    "system_design"
  else
    "general_help"

/-- The if/else chain of `part_000`'s `#analyze` is exactly first-match
dispatch over its ordered rule list with default intent `general_help`. -/
theorem part000_analyzeIntent_eq_classifyList (lower : String) :
    analyzeIntent lower = classifyList "general_help" lower rules := by
  simp [analyzeIntent, classifyList, rules, ruleMatches, List.any_cons,
    List.any_nil, Bool.or_false, Bool.or_assoc]

end DCA

/-- First-match dispatch returns the intent of the earliest matching rule:
if rule `i` matches and no rule before `i` matches, the classifier answers
with rule `i`'s intent, whatever later rules do. -/
theorem classifyList_first (dflt lower : String) :
    ∀ (rs : List KeywordRule) (i : Nat) (hi : i < rs.length),
      ruleMatches lower (rs.get ⟨i, hi⟩) = true →
      (∀ k (hk : k < i), ruleMatches lower (rs.get ⟨k, Nat.lt_trans hk hi⟩) = false) →
      classifyList dflt lower rs = (rs.get ⟨i, hi⟩).2 := by
  intro rs
  induction rs with
  | nil => intro i hi; exact absurd hi (by simp)
  | cons r rest ih =>
    intro i hi hmatch hmin
    cases i with
    | zero =>
      simp only [List.get] at hmatch ⊢
      simp [classifyList, hmatch]
    | succ n =>
      have h0 : ruleMatches lower r = false := by
        have := hmin 0 (Nat.succ_pos n)
        simpa using this
      simp only [List.get] at hmatch ⊢
      simp only [classifyList, h0, Bool.false_eq_true, if_false]
      exact ih n (Nat.lt_of_succ_lt_succ hi) hmatch
        (fun k hk => by
          have := hmin (k + 1) (Nat.succ_lt_succ hk)
          simpa using this)

/-- If no rule matches, first-match dispatch returns the default intent. -/
theorem classifyList_no_match (dflt lower : String) :
    ∀ (rs : List KeywordRule),
      (∀ r, r ∈ rs → ruleMatches lower r = false) →
      classifyList dflt lower rs = dflt := by
  intro rs
  induction rs with
  | nil => intro _; rfl
  | cons r rest ih =>
    intro h
    have h0 : ruleMatches lower r = false := h r (List.mem_cons_self r rest)
    simp only [classifyList, h0, Bool.false_eq_true, if_false]
    exact ih (fun q hq => h q (List.mem_cons_of_mem r hq))

/-- A list of whitespace characters trims to the empty list. -/
theorem trimChars_of_all_whitespace (l : List Char)
    (h : l.all Char.isWhitespace = true) : trimChars l = [] := by
  have h1 : l.dropWhile Char.isWhitespace = [] := by
    induction l with
    | nil => rfl
    | cons a t ih =>
      simp only [List.all_cons, Bool.and_eq_true] at h
      simp [List.dropWhile, h.1, ih h.2]
  simp [trimChars, h1]

/-- Claim C1: on an input containing a keyword of an earlier rule and a
keyword of a later rule, the classifier answers with the earlier rule's
intent. Stated generically: first-match dispatch over any ordered rule
list returns the intent of the earliest matching rule; the `#analyze`
if/else chains of `src/chat.js` and `src/unnamed/part_000` are exactly
that dispatch over their rule lists; and the input
`"bug in my discipline system"` — which hits rule 0
(discipline keywords) and rule 1 (technical keywords) — resolves to
`system_design_support` in `src/chat.js` and to `discipline_support`
in `src/unnamed/part_000`, never to the technical intent. -/
theorem spec_C1 :
    (∀ (dflt lower : String) (rs : List KeywordRule) (i j : Nat)
        (hi : i < rs.length) (hj : j < rs.length),
        i < j →
        ruleMatches lower (rs.get ⟨i, hi⟩) = true →
        ruleMatches lower (rs.get ⟨j, hj⟩) = true →
        (∀ k (hk : k < i), ruleMatches lower (rs.get ⟨k, Nat.lt_trans hk hi⟩) = false) →
        classifyList dflt lower rs = (rs.get ⟨i, hi⟩).2) ∧
    (∀ lower, Chat.analyzeIntent lower = classifyList "general_guidance" lower Chat.rules) ∧
    (∀ lower, DCA.analyzeIntent lower = classifyList "general_help" lower DCA.rules) ∧
    (∀ ts : String, (Chat.analyze ⟨"bug in my discipline system", ts⟩).intent = "system_design_support") ∧
    (DCA.analyzeIntent (jsToLower "bug in my discipline system") = "discipline_support") := by
  refine ⟨?_, Chat.analyzeIntent_eq_classifyList, DCA.part000_analyzeIntent_eq_classifyList, ?_, ?_⟩
  · intro dflt lower rs i j hi hj _ hmi _ hmin
    exact classifyList_first dflt lower rs i hi hmi hmin
  · intro ts; rfl
  · decide

/-- Claim C1 witness: the hypotheses of the universal part hold at the
spec's own example — `"bug in my discipline system"` matches rule 0 and
rule 1 of the `src/chat.js` rule list, and dispatch returns rule 0's
intent. -/
theorem spec_C1_witness :
    ruleMatches (jsToLower "bug in my discipline system")
        (Chat.rules.get ⟨0, by decide⟩) = true ∧
    ruleMatches (jsToLower "bug in my discipline system")
        (Chat.rules.get ⟨1, by decide⟩) = true ∧
    classifyList "general_guidance" (jsToLower "bug in my discipline system") Chat.rules
      = (Chat.rules.get ⟨0, by decide⟩).2 :=
  ⟨by decide, by decide,
    spec_C1.1 "general_guidance" (jsToLower "bug in my discipline system")
      Chat.rules 0 1 (by decide) (by decide) (by decide) (by decide) (by decide)
      (fun k hk => absurd hk (Nat.not_lt_zero k))⟩

/-- Claim C2 counterexample: `#observe` does not coerce every non-string
input to the empty string. The truthy number `1` passes through
`(input || '')` unchanged and is stringified by `toString()`, so the
observed text is `"1"`, not `""`. -/
theorem spec_C2_counterexample :
    ¬ ((observe (JSValue.num 1) "2025-01-01T00:00:00.000Z").text = "") := by
  decide

/-- Claim C2 (amended): every falsy input (`undefined`, `null`, `false`,
`0`, the empty string) is coerced by `#observe` to the empty string;
every whitespace-only string input trims to the empty string; and every
input whose lower-cased observed text contains no keyword of any rule is
classified with the default intent `general_guidance`. (Truthy non-string
inputs are instead converted with `toString()`, per the counterexample.) -/
theorem spec_C2 :
    (∀ (v : JSValue) (now : String), jsTruthy v = false →
      (observe v now).text = "") ∧
    (∀ (s : String) (now : String), s.data.all Char.isWhitespace = true →
      (observe (JSValue.str s) now).text = "") ∧
    (∀ (v : JSValue) (now : String),
      (∀ r, r ∈ Chat.rules →
        ruleMatches (jsToLower (observe v now).text) r = false) →
      (Chat.analyze (observe v now)).intent = "general_guidance") := by
  refine ⟨?_, ?_, ?_⟩
  · intro v now h
    simp [observe, jsOr, h, jsToString, jsTrim, trimChars]
  · intro s now h
    by_cases hs : s = ""
    · subst hs
      rfl
    · have hT : jsTruthy (JSValue.str s) = true := by
        simp [jsTruthy, hs]
      simp only [observe, jsOr, hT, if_true, jsToString]
      show (jsTrim s) = ""
      have := trimChars_of_all_whitespace s.data h
      simp [jsTrim, this]
  · intro v now h
    show Chat.analyzeIntent (jsToLower (observe v now).text) = "general_guidance"
    rw [Chat.analyzeIntent_eq_classifyList]
    exact classifyList_no_match _ _ _ h

/-- Claim C2 witness: the amended statement applied at `null`, at the
whitespace-only string `"   "`, and at the keyword-free input
`"hello there"`. -/
theorem spec_C2_witness :
    (observe JSValue.null "t").text = "" ∧
    (observe (JSValue.str "   ") "t").text = "" ∧
    (Chat.analyze (observe (JSValue.str "hello there") "t")).intent = "general_guidance" :=
  ⟨spec_C2.1 JSValue.null "t" rfl,
   spec_C2.2.1 "   " "t" (by decide),
   spec_C2.2.2 (JSValue.str "hello there") "t" (by decide)⟩

namespace Chat

/-- `#persona` from `src/chat.js` line 14. -/
def persona : String := "Purna Chandra (Chandu) - The Disciplined Creator"

/-- `#principles` from `src/chat.js` lines 17–24. -/
def principles : List String :=
  [ "Discipline replaces motivation.",
    "System beats emotion.",
    "Clarity before action.",
    "Be calm. Be precise. Be consistent.",
    "Seek knowledge daily, but apply it practically.",
    "Help others rise; growth means nothing if you grow alone." ]

/-- `#knowledgeDomains` from `src/chat.js` lines 27–34. -/
def knowledgeDomains : List String :=
  [ "Self-Improvement & Psychology (Osho, Frankl, Goggins, Dweck, emotional control)",
    "Technology & AI Integration (IoT, Arduino, Automation, AI Agents, Prompt Reasoning)",
    "Communication (Podcasting, Storytelling, Public Speaking, Teaching mindset)",
    "Physical Mastery (Marathon running, Army training discipline, mental toughness)",
    "Analytical Reasoning (SSC CGL focus, Critical Thinking)",
    "Core Values: Consistency, Clarity, Growth, Balance, Contribution" ]

/-- `systemGoal` for `system_design_support` (`src/chat.js` line 76). -/
def goalSystemDesign : String :=
  "Help the user build a simple, executable system, emphasizing that \"Consistency beats intensity\" and \"Discipline replaces motivation.\""

/-- `structureHint` for `system_design_support` (`src/chat.js` line 77). -/
def hintSystemDesign : String :=
  "Respond with 3 short sections: (1) System Diagnosis based on Chandu\x27s philosophy, (2) A minimal, actionable Core Loop, (3) One Next Action."

/-- `systemGoal` for `technical_system_help` (`src/chat.js` line 80). -/
def goalTechnical : String :=
  "Provide calm, structured technical guidance, integrating AI, IoT, or automation principles where relevant, and adhering to the \"Clarity before action\" principle."

/-- `structureHint` for `technical_system_help` (`src/chat.js` line 81). -/
def hintTechnical : String :=
  "Respond with: (1) Overview of the technical solution, (2) Step-by-step logical process, (3) Chandu\x27s Principle applied to the problem."

/-- `systemGoal` for `emotional_control_reframing` (`src/chat.js` line 84). -/
def goalEmotional : String :=
  "Acknowledge the feeling briefly, then reframe the situation using the \"System before Emotion\" principle into a structured, logical action plan for self-mastery."

/-- `structureHint` for `emotional_control_reframing` (`src/chat.js` line 85). -/
def hintEmotional : String :=
  "Respond with: (1) Calm Acknowledgement, (2) Reframing the challenge as a system gap, (3) One clear, emotionally controlled action."

/-- `systemGoal` for `educational_aspirant_guidance` (`src/chat.js` line 88). -/
def goalEducational : String :=
  "Provide strategic, disciplined study guidance focusing on SSC CGL readiness, applying long-term consistency over short-term effort."

/-- `structureHint` for `educational_aspirant_guidance` (`src/chat.js` line 89). -/
def hintEducational : String :=
  "Respond with: (1) The Core Challenge, (2) A clear, structured study plan step, (3) A concluding philosophical motto."

/-- Default `systemGoal` (`src/chat.js` line 92). -/
def goalDefault : String :=
  "Provide a highly structured, analytical response blending discipline, technology, and personal growth."

/-- Default `structureHint` (`src/chat.js` line 93). -/
def hintDefault : String :=
  "Respond with: (1) Clarification of the user\x27s objective, (2) Chandu\x27s core system to address it, (3) A single, disciplined recommendation."

/-- `#simplify` from `src/chat.js` lines 69–97: select the goal/hint pair
by a switch on the intent, then merge the analysis, the pair and the
persona context into the plan. -/
def simplify (a : Analysis) : Plan :=
  let gh : String × String :=
    if a.intent = "system_design_support" then (goalSystemDesign, hintSystemDesign)
    else if a.intent = "technical_system_help" then (goalTechnical, hintTechnical)
    else if a.intent = "emotional_control_reframing" then (goalEmotional, hintEmotional)
    else if a.intent = "educational_aspirant_guidance" then (goalEducational, hintEducational)
    else (goalDefault, hintDefault)
  { text := a.text, timestamp := a.timestamp, intent := a.intent,
    systemGoal := gh.1, structureHint := gh.2,
    persona := persona, corePrinciples := principles,
    knowledgeDomains := knowledgeDomains }

end Chat

/-- Claim C7: the response planner is a pure function of the intent — the
selected goal/hint pair depends on nothing else in the analysis, two calls
on the same intent give identical strings, and every intent outside the
four listed cases (reachable or not) selects the default table entry. -/
theorem spec_C7 :
    (∀ a₁ a₂ : Analysis, a₁.intent = a₂.intent →
      (Chat.simplify a₁).systemGoal = (Chat.simplify a₂).systemGoal ∧
      (Chat.simplify a₁).structureHint = (Chat.simplify a₂).structureHint) ∧
    (∀ a : Analysis,
      a.intent ∉ (["system_design_support", "technical_system_help",
        "emotional_control_reframing", "educational_aspirant_guidance"] : List String) →
      (Chat.simplify a).systemGoal = Chat.goalDefault ∧
      (Chat.simplify a).structureHint = Chat.hintDefault) := by
  constructor
  · intro a₁ a₂ h
    simp [Chat.simplify, h]
  · intro a h
    simp only [List.mem_cons, List.not_mem_nil, or_false, not_or] at h
    obtain ⟨h1, h2, h3, h4⟩ := h
    simp [Chat.simplify, h1, h2, h3, h4]

/-- Claim C7 witness: the planner theorem applied at two analyses sharing
the intent `system_design_support` and at an analysis with the unlisted
intent `mystery_intent`, which selects the default entry. -/
theorem spec_C7_witness :
    ((Chat.simplify ⟨"a", "t1", "system_design_support"⟩).systemGoal
        = (Chat.simplify ⟨"b", "t2", "system_design_support"⟩).systemGoal ∧
      (Chat.simplify ⟨"a", "t1", "system_design_support"⟩).structureHint
        = (Chat.simplify ⟨"b", "t2", "system_design_support"⟩).structureHint) ∧
    ((Chat.simplify ⟨"c", "t3", "mystery_intent"⟩).systemGoal = Chat.goalDefault ∧
      (Chat.simplify ⟨"c", "t3", "mystery_intent"⟩).structureHint = Chat.hintDefault) :=
  ⟨spec_C7.1 ⟨"a", "t1", "system_design_support"⟩ ⟨"b", "t2", "system_design_support"⟩ rfl,
   spec_C7.2 ⟨"c", "t3", "mystery_intent"⟩ (by decide)⟩

/-- Claim C10: the observed `text` and `timestamp` fields are carried
unchanged through `#analyze` and `#simplify` into the final plan — the
later pipeline steps only add fields. -/
theorem spec_C10 :
    ∀ (input : JSValue) (now : String),
      (Chat.analyze (observe input now)).text = (observe input now).text ∧
      (Chat.analyze (observe input now)).timestamp = (observe input now).timestamp ∧
      (Chat.simplify (Chat.analyze (observe input now))).text = (observe input now).text ∧
      (Chat.simplify (Chat.analyze (observe input now))).timestamp = (observe input now).timestamp := by
  intro input now
  refine ⟨rfl, rfl, rfl, rfl⟩

/-- The provider-side error payload: `err.response.data.error.message`. -/
structure ProviderError where
  message : Option String
deriving DecidableEq

/-- The body of a non-2xx provider response: `err.response.data`. -/
structure ErrorPayload where
  error : Option ProviderError
deriving DecidableEq

/-- An axios transport error: the raw `err.message` plus the optional
`err.response?.data` payload. -/
structure AxiosError where
  message : String
  responseData : Option ErrorPayload
deriving DecidableEq

/-- `err.response?.data?.error?.message || err.message` (`src/chat.js`
line 147, `src/api/chat.js` line 153). -/
def errorDetails (e : AxiosError) : String :=
  jsOrString ((e.responseData.bind (fun d => d.error)).bind (fun pe => pe.message)) e.message

namespace Chat

/-- `message.content` inside a chat-completions choice. -/
structure GroqMessage where
  content : Option String
deriving DecidableEq

/-- One entry of the chat-completions `choices` array. -/
structure GroqChoice where
  message : Option GroqMessage
deriving DecidableEq

/-- A chat-completions success body: `response.data`. -/
structure GroqData where
  choices : Option (List GroqChoice)
deriving DecidableEq

/-- One `{role, content}` message of the outbound payload. -/
structure ChatMessage where
  role : String
  content : String
deriving DecidableEq

/-- The outbound chat-completions payload `{model, messages}`
(`src/chat.js` lines 133–142; headers are collaborator plumbing). -/
structure GroqRequest where
  model : String
  messages : List ChatMessage
deriving DecidableEq

/-- What one `axios.post` attempt does: either a success body (whose
fields may each be absent) or a thrown error. -/
inductive GroqOutcome where
  | ok (data : Option GroqData)
  | err (e : AxiosError)
deriving DecidableEq

/-- The `personaData` system-message template of `src/chat.js`
lines 108–119, with the two `join(' | ')` interpolations and the
goal/hint interpolations. -/
def personaData (plan : Plan) : String :=
  "\n      You are Purna Chandra (Chandu) - The Disciplined Creator. \n      Your purpose is to act as a self-evolving human system that blends discipline, curiosity, and technology to create progress.\n      \n      **Core Principles:** " ++
    (joinSep " | " plan.corePrinciples ++
      ("\n      **Knowledge:** " ++
        (joinSep " | " plan.knowledgeDomains ++
          ("\n      **Motto:** \"Be a system, not a seeker. Build yourself so strong that discipline replaces motivation.\"\n      **Tone:** Grounded, calm, assertive, analytical, and purposeful. Avoid flowery or excessive emotional language.\n      \n      Your goal is: " ++
            (plan.systemGoal ++
              ("\n      Your response MUST adhere strictly to this structure: " ++
                (plan.structureHint ++ "\n    ")))))))

/-- The user-message content `User input: "${plan.text}"` of
`src/chat.js` line 128. -/
def userContent (plan : Plan) : String :=
  "User input: \"" ++ (plan.text ++ "\"")

/-- The outbound payload of `src/chat.js` lines 104–135: the fixed model
name and the system/user message pair. -/
def buildRequest (plan : Plan) : GroqRequest :=
  { model := "llama-3.1-70b-versatile",
    messages := [⟨"system", personaData plan⟩, ⟨"user", userContent plan⟩] }

/-- `response.data?.choices?.[0]?.message?.content` (`src/chat.js`
line 144). -/
def extractContent (data : Option GroqData) : Option String :=
  ((data.bind (fun d => d.choices)).bind List.head?).bind
    (fun c => c.message.bind (fun m => m.content))

/-- `#callAIModel` from `src/chat.js` lines 99–151. The transport is the
single `axios.post` attempt, modelled as a function from the built
request to its outcome; the second component counts how many times the
transport was invoked. Every branch returns a string — nothing is
thrown past this boundary. -/
def callAIModel (apiKey : Option String) (transport : GroqRequest → GroqOutcome)
    (plan : Plan) : String × Nat :=
  if keyTruthy apiKey = false then
    ("GROQ API key not set. Cannot call external model.", 0)
  else
    match transport (buildRequest plan) with
    | .ok d =>
      (jsOrString (extractContent d) "Error: No valid response content from AI model.", 1)
    | .err e =>
      ("System Failure: Error calling GROQ API. Check API Key validity and Vercel setup. Details: " ++ errorDetails e, 1)

/-- `processInteraction` from `src/chat.js` lines 36–42: the four
pipeline stages followed by `rawResponse.trim()`. -/
def processInteraction (apiKey : Option String) (transport : GroqRequest → GroqOutcome)
    (userInput : JSValue) (now : String) : String :=
  let observed := observe userInput now
  let analysis := analyze observed
  let plan := simplify analysis
  jsTrim (callAIModel apiKey transport plan).1

end Chat

/-- Claim C3: with no credential configured (absent or empty
`GROQ_API_KEY`), `#callAIModel` short-circuits to the fixed fallback
string and the HTTP transport is invoked zero times, for every plan and
every transport. -/
theorem spec_C3 :
    ∀ (apiKey : Option String) (transport : Chat.GroqRequest → Chat.GroqOutcome)
      (plan : Plan),
      keyTruthy apiKey = false →
      Chat.callAIModel apiKey transport plan
        = ("GROQ API key not set. Cannot call external model.", 0) := by
  intro apiKey transport plan h
  simp [Chat.callAIModel, h]

/-- Claim C3 witness: the short-circuit at the absent key and at the
empty-string key, under a transport that would answer if it were ever
invoked. -/
theorem spec_C3_witness :
    Chat.callAIModel none (fun _ => Chat.GroqOutcome.ok none)
        (Chat.simplify (Chat.analyze (observe (JSValue.str "hi") "t")))
      = ("GROQ API key not set. Cannot call external model.", 0) ∧
    Chat.callAIModel (some "") (fun _ => Chat.GroqOutcome.ok none)
        (Chat.simplify (Chat.analyze (observe (JSValue.str "hi") "t")))
      = ("GROQ API key not set. Cannot call external model.", 0) :=
  ⟨spec_C3 none _ _ rfl, spec_C3 (some "") _ _ rfl⟩

/-- Claim C4: when the transport throws, `#callAIModel` catches the error
and returns the formatted failure string embedding the provider's error
message — the payload message when present and non-empty, the raw
`err.message` otherwise — and `processInteraction` passes that string
(trimmed) to its caller; no branch raises. -/
theorem spec_C4 :
    (∀ (apiKey : Option String) (e : AxiosError) (plan : Plan),
      keyTruthy apiKey = true →
      Chat.callAIModel apiKey (fun _ => Chat.GroqOutcome.err e) plan
        = ("System Failure: Error calling GROQ API. Check API Key validity and Vercel setup. Details: " ++ errorDetails e, 1)) ∧
    (∀ (raw m : String), m ≠ "" →
      errorDetails ⟨raw, some ⟨some ⟨some m⟩⟩⟩ = m) ∧
    (∀ raw : String, errorDetails ⟨raw, none⟩ = raw) ∧
    (∀ (apiKey : Option String) (e : AxiosError) (userInput : JSValue) (now : String),
      keyTruthy apiKey = true →
      Chat.processInteraction apiKey (fun _ => Chat.GroqOutcome.err e) userInput now
        = jsTrim ("System Failure: Error calling GROQ API. Check API Key validity and Vercel setup. Details: " ++ errorDetails e)) := by
  refine ⟨?_, ?_, ?_, ?_⟩
  · intro apiKey e plan h
    simp [Chat.callAIModel, h]
  · intro raw m hm
    simp [errorDetails, jsOrString, hm]
  · intro raw
    simp [errorDetails, jsOrString]
  · intro apiKey e userInput now h
    simp [Chat.processInteraction, Chat.callAIModel, h]

/-- Claim C4 witness: the failure path at the concrete key `"k"` with a
provider payload message, and the details fallback at an error with no
payload. -/
theorem spec_C4_witness :
    Chat.callAIModel (some "k") (fun _ => Chat.GroqOutcome.err ⟨"Request failed with status code 401", some ⟨some ⟨some "Invalid API Key"⟩⟩⟩)
        (Chat.simplify (Chat.analyze (observe (JSValue.str "hi") "t")))
      = ("System Failure: Error calling GROQ API. Check API Key validity and Vercel setup. Details: " ++ errorDetails ⟨"Request failed with status code 401", some ⟨some ⟨some "Invalid API Key"⟩⟩⟩, 1) ∧
    errorDetails ⟨"Request failed with status code 401", some ⟨some ⟨some "Invalid API Key"⟩⟩⟩ = "Invalid API Key" ∧
    errorDetails ⟨"Network Error", none⟩ = "Network Error" :=
  ⟨spec_C4.1 (some "k") ⟨"Request failed with status code 401", some ⟨some ⟨some "Invalid API Key"⟩⟩⟩ _ rfl,
   spec_C4.2.1 "Request failed with status code 401" "Invalid API Key" (by decide),
   spec_C4.2.2.1 "Network Error"⟩

namespace ApiChat

/-- One `{text}` part of a generate-content candidate. -/
structure GemPart where
  text : Option String
deriving DecidableEq

/-- `candidates[i].content`: a `parts` array. -/
structure GemContent where
  parts : Option (List GemPart)
deriving DecidableEq

/-- One entry of the generate-content `candidates` array. -/
structure GemCandidate where
  finishReason : Option String
  content : Option GemContent
deriving DecidableEq

/-- A generate-content success body: `response.data`. -/
structure GemData where
  candidates : Option (List GemCandidate)
deriving DecidableEq

/-- One `{text}` part of the outbound `contents` array. -/
structure GemReqPart where
  text : String
deriving DecidableEq

/-- One `{role, parts}` entry of the outbound `contents` array. -/
structure GemReqContent where
  role : String
  parts : List GemReqPart
deriving DecidableEq

/-- The outbound generate-content body of `src/api/chat.js` lines 119–130:
`system_instruction` and `contents` (the numeric
`generation_config.temperature = 0.2` is a floating-point constant and is
not modelled; no claim refers to it). -/
structure GemRequest where
  system_instruction : String
  contents : List GemReqContent
deriving DecidableEq

/-- What one `axios.post` attempt does for the Gemini endpoint. -/
inductive GemOutcome where
  | ok (data : Option GemData)
  | err (e : AxiosError)
deriving DecidableEq

/-- The `systemInstruction` template of `src/api/chat.js` lines 105–116.
Its text is character-for-character the `personaData` template of
`src/chat.js` lines 108–119, so it is embedded by the same definition. -/
def systemInstruction (plan : Plan) : String := Chat.personaData plan

/-- The outbound body of `src/api/chat.js` lines 119–130:
`system_instruction: systemInstruction.trim()` and a single user-role
content part carrying `User input: "${plan.text}"`. -/
def buildRequest (plan : Plan) : GemRequest :=
  { system_instruction := jsTrim (systemInstruction plan),
    contents := [⟨"user", [⟨"User input: \"" ++ (plan.text ++ "\"")⟩]⟩] }

/-- The safety check of `src/api/chat.js` lines 145–148:
`candidates && candidates.length > 0 && candidates[0].finishReason === 'SAFETY'`. -/
def safetyBlocked : Option (List GemCandidate) → Bool
  | none => false
  | some [] => false
  | some (c :: _) => c.finishReason == some "SAFETY"

/-- The fixed refusal string of `src/api/chat.js` line 147 (identical in
`src/unnamed/part_001` line 115). -/
def safetyRefusal : String :=
  "I cannot respond to that request, as it violates my core principle of calm contribution and adherence to safety guidelines."

/-- `response.data?.candidates?.[0]?.content?.parts?.[0]?.text`
(`src/api/chat.js` line 151). -/
def extractText (data : Option GemData) : Option String :=
  (((((data.bind (fun d => d.candidates)).bind List.head?).bind
      (fun c => c.content)).bind (fun ct => ct.parts)).bind List.head?).bind
    (fun p => p.text)

/-- `#callAIModel` from `src/api/chat.js` lines 95–156 (the same logic as
`src/unnamed/part_001` lines 68–123): credential short-circuit, safety
special case, text extraction with `||` fallback, and the catch branch.
The second component counts transport invocations. -/
def callAIModel (apiKey : Option String) (transport : GemRequest → GemOutcome)
    (plan : Plan) : String × Nat :=
  if keyTruthy apiKey = false then
    ("System Failure: GEMINI API key is not set. Cannot call external model.", 0)
  else
    match transport (buildRequest plan) with
    | .ok d =>
      if safetyBlocked (d.bind (fun g => g.candidates)) then
        (safetyRefusal, 1)
      else
        (jsOrString (extractText d) "Error: No valid response content from AI model.", 1)
    | .err e =>
      ("System Failure: Error calling Gemini API. Details: " ++ errorDetails e, 1)

end ApiChat

/-- Claim C5: on a provider-shape success body the gateway extracts
exactly the nested text field — `choices[0].message.content` for the
chat-completions shape of `src/chat.js`, and
`candidates[0].content.parts[0].text` for the generate-content shape of
`src/api/chat.js` — and when the body is well-formed but carries no
usable text (an absent or empty content field), it returns the fixed
fallback string instead of empty content. -/
theorem spec_C5 :
    (∀ (apiKey : Option String) (plan : Plan) (x : String),
      keyTruthy apiKey = true → x ≠ "" →
      (Chat.callAIModel apiKey
          (fun _ => Chat.GroqOutcome.ok (some ⟨some [⟨some ⟨some x⟩⟩]⟩)) plan).1 = x) ∧
    (∀ (apiKey : Option String) (plan : Plan),
      keyTruthy apiKey = true →
      (Chat.callAIModel apiKey
          (fun _ => Chat.GroqOutcome.ok (some ⟨some [⟨some ⟨none⟩⟩]⟩)) plan).1
        = "Error: No valid response content from AI model.") ∧
    (∀ (apiKey : Option String) (plan : Plan),
      keyTruthy apiKey = true →
      (Chat.callAIModel apiKey
          (fun _ => Chat.GroqOutcome.ok (some ⟨some [⟨some ⟨some ""⟩⟩]⟩)) plan).1
        = "Error: No valid response content from AI model.") ∧
    (∀ (apiKey : Option String) (plan : Plan) (x : String),
      keyTruthy apiKey = true → x ≠ "" →
      (ApiChat.callAIModel apiKey
          (fun _ => ApiChat.GemOutcome.ok (some ⟨some [⟨some "STOP", some ⟨some [⟨some x⟩]⟩⟩]⟩)) plan).1
        = x) ∧
    (∀ (apiKey : Option String) (plan : Plan),
      keyTruthy apiKey = true →
      (ApiChat.callAIModel apiKey
          (fun _ => ApiChat.GemOutcome.ok (some ⟨some [⟨some "STOP", some ⟨some [⟨none⟩]⟩⟩]⟩)) plan).1
        = "Error: No valid response content from AI model.") := by
  refine ⟨?_, ?_, ?_, ?_, ?_⟩
  · intro apiKey plan x h hx
    simp [Chat.callAIModel, h, Chat.extractContent, jsOrString, hx]
  · intro apiKey plan h
    simp [Chat.callAIModel, h, Chat.extractContent, jsOrString]
  · intro apiKey plan h
    simp [Chat.callAIModel, h, Chat.extractContent, jsOrString]
  · intro apiKey plan x h hx
    simp [ApiChat.callAIModel, h, ApiChat.safetyBlocked, ApiChat.extractText, jsOrString, hx]
  · intro apiKey plan h
    simp [ApiChat.callAIModel, h, ApiChat.safetyBlocked, ApiChat.extractText, jsOrString]

/-- Claim C5 witness: both extraction shapes evaluated at the key `"k"`,
the content `"X"` and a contentless body. -/
theorem spec_C5_witness :
    (Chat.callAIModel (some "k")
        (fun _ => Chat.GroqOutcome.ok (some ⟨some [⟨some ⟨some "X"⟩⟩]⟩))
        (Chat.simplify (Chat.analyze (observe (JSValue.str "hi") "t")))).1 = "X" ∧
    (Chat.callAIModel (some "k")
        (fun _ => Chat.GroqOutcome.ok (some ⟨some [⟨some ⟨none⟩⟩]⟩))
        (Chat.simplify (Chat.analyze (observe (JSValue.str "hi") "t")))).1
      = "Error: No valid response content from AI model." ∧
    (ApiChat.callAIModel (some "k")
        (fun _ => ApiChat.GemOutcome.ok (some ⟨some [⟨some "STOP", some ⟨some [⟨some "X"⟩]⟩⟩]⟩))
        (Chat.simplify (Chat.analyze (observe (JSValue.str "hi") "t")))).1 = "X" :=
  ⟨spec_C5.1 (some "k") _ "X" rfl (by decide),
   spec_C5.2.1 (some "k") _ rfl,
   spec_C5.2.2.2.1 (some "k") _ "X" rfl (by decide)⟩

/-- Claim C6: whenever a generate-content success body has a first
candidate with `finishReason === 'SAFETY'`, the gateway returns the fixed
refusal string, and that string differs from the transport-failure string
whatever the error details are. -/
theorem spec_C6 :
    (∀ (apiKey : Option String) (plan : Plan) (c : ApiChat.GemCandidate)
        (rest : List ApiChat.GemCandidate),
      keyTruthy apiKey = true →
      c.finishReason = some "SAFETY" →
      ApiChat.callAIModel apiKey
          (fun _ => ApiChat.GemOutcome.ok (some ⟨some (c :: rest)⟩)) plan
        = (ApiChat.safetyRefusal, 1)) ∧
    (∀ d : String,
      ApiChat.safetyRefusal ≠ "System Failure: Error calling Gemini API. Details: " ++ d) := by
  constructor
  · intro apiKey plan c rest h hc
    simp [ApiChat.callAIModel, h, ApiChat.safetyBlocked, hc]
  · intro d h
    have h2 : ApiChat.safetyRefusal.data
        = ("System Failure: Error calling Gemini API. Details: " : String).data ++ d.data := by
      rw [h]
      exact String.data_append _ _
    have hL : ApiChat.safetyRefusal.data.head? = some 'I' := rfl
    have hR : (("System Failure: Error calling Gemini API. Details: " : String).data ++ d.data).head?
        = some 'S' := rfl
    rw [h2, hR] at hL
    exact absurd hL (by decide)

/-- Claim C6 witness: the safety special case evaluated at a concrete
blocked candidate and a concrete error-details string. -/
theorem spec_C6_witness :
    ApiChat.callAIModel (some "k")
        (fun _ => ApiChat.GemOutcome.ok (some ⟨some [⟨some "SAFETY", none⟩]⟩))
        (Chat.simplify (Chat.analyze (observe (JSValue.str "hi") "t")))
      = (ApiChat.safetyRefusal, 1) ∧
    ApiChat.safetyRefusal ≠ "System Failure: Error calling Gemini API. Details: " ++ "boom" :=
  ⟨spec_C6.1 (some "k") _ ⟨some "SAFETY", none⟩ [] rfl rfl,
   spec_C6.2 "boom"⟩

theorem strData_append (a b : String) : (a ++ b).data = a.data ++ b.data := rfl

/-- A string is a substring of itself. -/
theorem isSubstr_refl (s : String) : IsSubstr s s :=
  ⟨[], [], by simp⟩

/-- Substring containment survives appending on the right. -/
theorem isSubstr_append_left (p a b : String) (h : IsSubstr p a) :
    IsSubstr p (a ++ b) := by
  obtain ⟨l, r, hd⟩ := h
  exact ⟨l, r ++ b.data, by rw [strData_append, hd]; simp [List.append_assoc]⟩

/-- Substring containment survives appending on the left. -/
theorem isSubstr_append_right (p a b : String) (h : IsSubstr p b) :
    IsSubstr p (a ++ b) := by
  obtain ⟨l, r, hd⟩ := h
  exact ⟨a.data ++ l, r, by rw [strData_append, hd]; simp [List.append_assoc]⟩

/-- Every member of a joined list occurs verbatim in the join. -/
theorem isSubstr_joinSep (sep p : String) :
    ∀ l : List String, p ∈ l → IsSubstr p (joinSep sep l)
  | [], hp => absurd hp (List.not_mem_nil p)
  | [x], hp => by
      have hx : p = x := by simpa using hp
      subst hx
      exact isSubstr_refl p
  | x :: y :: ys, hp => by
      rcases List.mem_cons.mp hp with h | h
      · subst h
        show IsSubstr p (p ++ sep ++ joinSep sep (y :: ys))
        exact isSubstr_append_left p (p ++ sep) (joinSep sep (y :: ys))
          (isSubstr_append_left p p sep (isSubstr_refl p))
      · have h1 := isSubstr_joinSep sep p (y :: ys) h
        show IsSubstr p (x ++ sep ++ joinSep sep (y :: ys))
        exact isSubstr_append_right p (x ++ sep) (joinSep sep (y :: ys)) h1

/-- Trimming a list framed by whitespace on both sides returns exactly the
middle part, provided the middle starts and ends with a non-whitespace
character. -/
theorem trimChars_frame (a m b : List Char)
    (ha : ∀ c ∈ a, Char.isWhitespace c = true)
    (hb : ∀ c ∈ b, Char.isWhitespace c = true)
    (h1 : ∃ c, m.head? = some c ∧ Char.isWhitespace c = false)
    (h2 : ∃ m' c, m = m' ++ [c] ∧ Char.isWhitespace c = false) :
    trimChars (a ++ (m ++ b)) = m := by
  obtain ⟨c1, hc1, hw1⟩ := h1
  obtain ⟨m', c2, hm, hw2⟩ := h2
  have step1 : (a ++ (m ++ b)).dropWhile Char.isWhitespace = m ++ b := by
    rw [List.dropWhile_append_of_pos (by simpa using ha)]
    cases m with
    | nil => simp at hc1
    | cons x xs =>
      have hx : x = c1 := by simpa using hc1
      subst hx
      show List.dropWhile Char.isWhitespace (x :: (xs ++ b)) = x :: (xs ++ b)
      rw [List.dropWhile_cons_of_neg (by simp [hw1])]
  unfold trimChars
  rw [step1]
  have hrb : (m ++ b).reverse = b.reverse ++ m.reverse := by simp
  rw [hrb, List.dropWhile_append_of_pos (by simp; intro c hc; simpa using hb c hc)]
  have hrev : m.reverse = c2 :: m'.reverse := by rw [hm]; simp
  rw [hrev, List.dropWhile_cons_of_neg (by simp [hw2]), ← hrev,
    List.reverse_reverse]

namespace DCA

/-- `#buildPromptFromPlan` from `src/unnamed/part_000` lines 202–216: the
single-blob prompt template, trimmed as in the source
(`` `...`.trim() ``). -/
def buildPromptFromPlan (plan : Plan) : String :=
  jsTrim
    ("\nUser input: \"" ++
      (plan.text ++
        ("\"\nTime: " ++
          (plan.timestamp ++
            ("\nIntent: " ++
              (plan.intent ++
                ("\n\nCore principles: " ++
                  (joinSep "; " plan.corePrinciples ++
                    ("\nKnowledge domains: " ++
                      (joinSep "; " plan.knowledgeDomains ++
                        ("\n\nSystem goal: " ++
                          (plan.systemGoal ++
                            ("\nStructure: " ++
                              (plan.structureHint ++
                                "\n\nGenerate a calm, structured, disciplined answer.\n    "))))))))))))))

/-- The trim in `#buildPromptFromPlan` removes exactly the template's
leading newline and trailing `"\n    "`: the interpolated interior is
kept verbatim. -/
theorem buildPromptFromPlan_data (plan : Plan) :
    (buildPromptFromPlan plan).data
      = ("User input: \"" : String).data ++
        (plan.text.data ++
          (("\"\nTime: " : String).data ++
            (plan.timestamp.data ++
              (("\nIntent: " : String).data ++
                (plan.intent.data ++
                  (("\n\nCore principles: " : String).data ++
                    ((joinSep "; " plan.corePrinciples).data ++
                      (("\nKnowledge domains: " : String).data ++
                        ((joinSep "; " plan.knowledgeDomains).data ++
                          (("\n\nSystem goal: " : String).data ++
                            (plan.systemGoal.data ++
                              (("\nStructure: " : String).data ++
                                (plan.structureHint.data ++
                                  ("\n\nGenerate a calm, structured, disciplined answer." : String).data))))))))))))) := by
  have hinner :
      ("\nUser input: \"" ++
        (plan.text ++
          ("\"\nTime: " ++
            (plan.timestamp ++
              ("\nIntent: " ++
                (plan.intent ++
                  ("\n\nCore principles: " ++
                    (joinSep "; " plan.corePrinciples ++
                      ("\nKnowledge domains: " ++
                        (joinSep "; " plan.knowledgeDomains ++
                          ("\n\nSystem goal: " ++
                            (plan.systemGoal ++
                              ("\nStructure: " ++
                                (plan.structureHint ++
                                  "\n\nGenerate a calm, structured, disciplined answer.\n    ")))))))))))))).data
      = ['\n'] ++
          ((("User input: \"" : String).data ++
            (plan.text.data ++
              (("\"\nTime: " : String).data ++
                (plan.timestamp.data ++
                  (("\nIntent: " : String).data ++
                    (plan.intent.data ++
                      (("\n\nCore principles: " : String).data ++
                        ((joinSep "; " plan.corePrinciples).data ++
                          (("\nKnowledge domains: " : String).data ++
                            ((joinSep "; " plan.knowledgeDomains).data ++
                              (("\n\nSystem goal: " : String).data ++
                                (plan.systemGoal.data ++
                                  (("\nStructure: " : String).data ++
                                    (plan.structureHint.data ++
                                      ("\n\nGenerate a calm, structured, disciplined answer." : String).data)))))))))))))) ++
            ['\n', ' ', ' ', ' ', ' ']) := by
    simp [strData_append, List.append_assoc]
  show (jsTrim _).data = _
  unfold jsTrim
  show trimChars _ = _
  rw [hinner]
  apply trimChars_frame
  · decide
  · decide
  · exact ⟨'U', rfl, by decide⟩
  · refine ⟨("User input: \"" : String).data ++
        (plan.text.data ++
          (("\"\nTime: " : String).data ++
            (plan.timestamp.data ++
              (("\nIntent: " : String).data ++
                (plan.intent.data ++
                  (("\n\nCore principles: " : String).data ++
                    ((joinSep "; " plan.corePrinciples).data ++
                      (("\nKnowledge domains: " : String).data ++
                        ((joinSep "; " plan.knowledgeDomains).data ++
                          (("\n\nSystem goal: " : String).data ++
                            (plan.systemGoal.data ++
                              (("\nStructure: " : String).data ++
                                (plan.structureHint.data ++
                                  ("\n\nGenerate a calm, structured, disciplined answer" : String).data))))))))))))),
      '.', ?_, by decide⟩
    simp [List.append_assoc]

end DCA

/-- Claim C8: for every plan (hence every persona configuration carried in
it), the assembled outbound prompt contains the observed user text
verbatim and every principle string verbatim — in `src/chat.js` the text
sits in the user-role message and the joined principles in the
system-role `personaData` message, and in `src/unnamed/part_000` both sit
in the single trimmed `#buildPromptFromPlan` blob. -/
theorem spec_C8 :
    (∀ plan : Plan, IsSubstr plan.text (Chat.userContent plan)) ∧
    (∀ (plan : Plan) (p : String), p ∈ plan.corePrinciples →
      IsSubstr p (Chat.personaData plan)) ∧
    (∀ plan : Plan, IsSubstr plan.text (DCA.buildPromptFromPlan plan)) ∧
    (∀ (plan : Plan) (p : String), p ∈ plan.corePrinciples →
      IsSubstr p (DCA.buildPromptFromPlan plan)) := by
  refine ⟨?_, ?_, ?_, ?_⟩
  · intro plan
    exact isSubstr_append_right plan.text "User input: \"" (plan.text ++ "\"")
      (isSubstr_append_left plan.text plan.text "\"" (isSubstr_refl plan.text))
  · intro plan p hp
    exact isSubstr_append_right p _ _
      (isSubstr_append_left p _ _ (isSubstr_joinSep " | " p plan.corePrinciples hp))
  · intro plan
    refine ⟨("User input: \"" : String).data,
      (("\"\nTime: " : String).data ++
        (plan.timestamp.data ++
          (("\nIntent: " : String).data ++
            (plan.intent.data ++
              (("\n\nCore principles: " : String).data ++
                ((joinSep "; " plan.corePrinciples).data ++
                  (("\nKnowledge domains: " : String).data ++
                    ((joinSep "; " plan.knowledgeDomains).data ++
                      (("\n\nSystem goal: " : String).data ++
                        (plan.systemGoal.data ++
                          (("\nStructure: " : String).data ++
                            (plan.structureHint.data ++
                              ("\n\nGenerate a calm, structured, disciplined answer." : String).data)))))))))))), ?_⟩
    rw [DCA.buildPromptFromPlan_data]
    simp [List.append_assoc]
  · intro plan p hp
    obtain ⟨l1, r1, hJ⟩ := isSubstr_joinSep "; " p plan.corePrinciples hp
    refine ⟨("User input: \"" : String).data ++
        (plan.text.data ++
          (("\"\nTime: " : String).data ++
            (plan.timestamp.data ++
              (("\nIntent: " : String).data ++
                (plan.intent.data ++
                  (("\n\nCore principles: " : String).data ++ l1)))))),
      r1 ++
        (("\nKnowledge domains: " : String).data ++
          ((joinSep "; " plan.knowledgeDomains).data ++
            (("\n\nSystem goal: " : String).data ++
              (plan.systemGoal.data ++
                (("\nStructure: " : String).data ++
                  (plan.structureHint.data ++
                    ("\n\nGenerate a calm, structured, disciplined answer." : String).data)))))), ?_⟩
    rw [DCA.buildPromptFromPlan_data, hJ]
    simp [List.append_assoc]

/-- Claim C8 witness: the containment theorem applied at a concrete plan
produced by the pipeline, for the observed text and for the first
principle of the persona. -/
theorem spec_C8_witness :
    IsSubstr (Chat.simplify (Chat.analyze (observe (JSValue.str "hello") "t"))).text
      (Chat.userContent (Chat.simplify (Chat.analyze (observe (JSValue.str "hello") "t")))) ∧
    IsSubstr "Discipline replaces motivation."
      (Chat.personaData (Chat.simplify (Chat.analyze (observe (JSValue.str "hello") "t")))) ∧
    IsSubstr "Discipline replaces motivation."
      (DCA.buildPromptFromPlan (Chat.simplify (Chat.analyze (observe (JSValue.str "hello") "t")))) :=
  ⟨spec_C8.1 (Chat.simplify (Chat.analyze (observe (JSValue.str "hello") "t"))),
   spec_C8.2.1 (Chat.simplify (Chat.analyze (observe (JSValue.str "hello") "t")))
     "Discipline replaces motivation." (by decide),
   spec_C8.2.2.2 (Chat.simplify (Chat.analyze (observe (JSValue.str "hello") "t")))
     "Discipline replaces motivation." (by decide)⟩

/-- `(Char.ofNat n).toNat = n` for a valid scalar value. -/
theorem char_toNat_ofNat (n : Nat) (h : n.isValidChar) :
    (Char.ofNat n).toNat = n := by
  rw [Char.ofNat, dif_pos h]
  rfl

/-- Lower-casing after upper-casing agrees with lower-casing directly. -/
theorem char_toLower_toUpper (c : Char) :
    (c.toUpper).toLower = c.toLower := by
  simp only [Char.toUpper, Char.toLower]
  by_cases h : c.toNat ≥ 97 ∧ c.toNat ≤ 122
  · rw [if_pos h]
    have hv : (c.toNat - 32).isValidChar := Or.inl (by omega)
    have ht : (Char.ofNat (c.toNat - 32)).toNat = c.toNat - 32 :=
      char_toNat_ofNat (c.toNat - 32) hv
    rw [ht, if_pos (by omega)]
    have he : c.toNat - 32 + 32 = c.toNat := by omega
    rw [he, Char.ofNat_toNat, if_neg (by omega)]
  · rw [if_neg h]

/-- Upper-casing a string does not change its lower-cased form. -/
theorem jsToLower_jsToUpper (s : String) :
    jsToLower (jsToUpper s) = jsToLower s := by
  show (⟨(s.data.map Char.toUpper).map Char.toLower⟩ : String) = ⟨s.data.map Char.toLower⟩
  rw [List.map_map]
  congr 1
  exact List.map_congr_left (fun c _ => char_toLower_toUpper c)

/-- Claim C9: the intent classifier is invariant under letter case — any
two inputs with the same lower-cased text classify identically, because
`#analyze` matches on `observed.text.toLowerCase()`; in particular
upper-casing an input never changes its intent. -/
theorem spec_C9 :
    (∀ (s t ts₁ ts₂ : String), jsToLower s = jsToLower t →
      (Chat.analyze ⟨s, ts₁⟩).intent = (Chat.analyze ⟨t, ts₂⟩).intent) ∧
    (∀ (s ts : String),
      (Chat.analyze ⟨jsToUpper s, ts⟩).intent = (Chat.analyze ⟨s, ts⟩).intent) := by
  constructor
  · intro s t ts₁ ts₂ h
    show Chat.analyzeIntent (jsToLower s) = Chat.analyzeIntent (jsToLower t)
    rw [h]
  · intro s ts
    show Chat.analyzeIntent (jsToLower (jsToUpper s)) = Chat.analyzeIntent (jsToLower s)
    rw [jsToLower_jsToUpper]

/-- Claim C9 witness: the case-invariance theorem applied at the concrete
case variants `"BUG in my Discipline SYSTEM"` and
`"bug in my discipline system"`. -/
theorem spec_C9_witness :
    (Chat.analyze ⟨"BUG in my Discipline SYSTEM", "t"⟩).intent
      = (Chat.analyze ⟨"bug in my discipline system", "t"⟩).intent :=
  spec_C9.1 "BUG in my Discipline SYSTEM" "bug in my discipline system" "t" "t" (by decide)
